import Mathlib

/-!
# Verification of the school-administration backend (src/index.js)

Shallow embedding of the Express/Mongoose application in `src/index.js`:
the data model (Teacher, Class, Student), the persistent store, the
token-gating middleware `authenticateToken`, the express-validator
chains, and the route handlers.  External collaborators that are not
part of the repository (bcryptjs, jsonwebtoken, validator.js's
`isEmail`) are modelled from the spec, as marked on each definition.
-/

namespace School

/-! ## Data model (the three Mongoose schemas) -/

/-- Embeds the `teacherSchema` of src/index.js: name, unique email,
password (stored hashed), address, status (default "ACTIVE"). -/
structure Teacher where
  id : Nat
  name : String
  email : String
  password : String
  address : String
  status : String
deriving DecidableEq, Repr

/-- Embeds the `classSchema` of src/index.js: standard, section
(required), status (default "ACTIVE"), optional teacher reference. -/
structure Class where
  id : Nat
  standard : String
  section_ : String
  status : String
  teacherId : Option Nat
deriving DecidableEq, Repr

/-- Embeds the `studentSchema` of src/index.js: names, optional class
reference, parent name, address, city. -/
structure Student where
  id : Nat
  firstName : String
  lastName : String
  classId : Option Nat
  parentName : String
  address : String
  city : String
deriving DecidableEq, Repr

/-- The document store holding the three collections. -/
structure Store where
  teachers : List Teacher
  classes : List Class
  students : List Student
deriving DecidableEq, Repr

/-! ## CredentialStore — modelled from the spec (bcryptjs is an
external library, not part of the repository) -/

/-- Modelled from the spec: `hash(plaintext)` of the CredentialStore
(`bcrypt.hash(password, 10)` in src/index.js line 100): a salted
one-way digest with the cost parameter (10) embedded in the output
alongside the salt, so the stored credential is an opaque string
distinct from the plaintext. -/
def bcryptHash (plaintext : String) (cost : Nat) : String :=
  "$2a$" ++ toString cost ++ "$" ++ plaintext

/-- Modelled from the spec: `verify(plaintext, opaque_hash)` of the
CredentialStore (`bcrypt.compare(password, teacher.password)` in
src/index.js line 132): recomputes the digest with the parameters
embedded in the stored value and compares. -/
def bcryptCompare (candidate stored : String) : Bool :=
  stored == bcryptHash candidate 10

/-! ## TokenService — modelled from the spec (jsonwebtoken is an
external library, not part of the repository) -/

/-- Little-endian decimal digit characters of `n` with explicit fuel
(the fuel is adequate whenever `n ≤ fuel`). -/
def natToCharsAux : Nat → Nat → List Char
  | 0, _ => []
  | _ + 1, 0 => []
  | fuel + 1, n + 1 =>
    Nat.digitChar ((n + 1) % 10) :: natToCharsAux fuel ((n + 1) / 10)

/-- Serialize a natural number as a nonempty digit string
(little-endian; an injective serialization is all the token format
needs). -/
def natToChars (n : Nat) : List Char :=
  if n = 0 then ['0'] else natToCharsAux n n

/-- Parse a little-endian digit string back to a natural number. -/
def charsToNat : List Char → Nat
  | [] => 0
  | c :: cs => (c.toNat - 48) + 10 * charsToNat cs

/-- Split a character list at its first `'.'`; `none` when no dot
occurs. -/
def splitAtDot : List Char → Option (List Char × List Char)
  | [] => none
  | c :: cs =>
    if c = '.' then some ([], cs)
    else
      match splitAtDot cs with
      | none => none
      | some (a, b) => some (c :: a, b)

/-- A wellformed numeric token segment: nonempty and all digits. -/
def isDigitSeg (cs : List Char) : Bool :=
  !cs.isEmpty && cs.all (·.isDigit)

/-- Modelled from the spec: `issue(identityClaim, secret, ttl)` of the
TokenService (`jwtToken.sign({id: teacher._id}, secret, {expiresIn:
"1h"})` in src/index.js line 137): a signed, self-contained token
embedding the identity claim and the expiry instant `now + ttl`. -/
def jwtSignChars (claim : Nat) (secret : String) (ttl now : Nat) : List Char :=
  "jwt".data ++
    ('.' :: (natToChars claim ++
      ('.' :: (natToChars (now + ttl) ++ ('.' :: secret.data)))))

/-- String form of `jwtSignChars`. -/
def jwtSign (claim : Nat) (secret : String) (ttl now : Nat) : String :=
  String.mk (jwtSignChars claim secret ttl now)

/-- Modelled from the spec: `verify(token, secret)` of the TokenService
(`jwtToken.verify(token, secret)` in src/index.js line 73): checks
structure, signature and expiry; every failure — structural
malformation, signature mismatch, or expiry — collapses to the single
outcome `none`. -/
def jwtVerifyChars (tok : List Char) (secret : String) (now : Nat) :
    Option Nat :=
  match splitAtDot tok with
  | none => none
  | some (tag, r1) =>
    if tag = "jwt".data then
      match splitAtDot r1 with
      | none => none
      | some (cSeg, r2) =>
        match splitAtDot r2 with
        | none => none
        | some (eSeg, sig) =>
          if isDigitSeg cSeg = true ∧ isDigitSeg eSeg = true ∧
              sig = secret.data ∧ now < charsToNat eSeg then
            some (charsToNat cSeg)
          else none
    else none

/-- String form of `jwtVerifyChars`. -/
def jwtVerify (token secret : String) (now : Nat) : Option Nat :=
  jwtVerifyChars token.data secret now

/-- The ttl the login handler passes to token issuance: `expiresIn:
"1h"`, i.e. 3600 seconds (src/index.js line 137). -/
def defaultTtl : Nat := 3600

/-! ## AuthorizationGate (`authenticateToken`, src/index.js 67-79) -/

/-- Outcome of the `authenticateToken` middleware. -/
inductive AuthOutcome where
  /-- 401 "Access Denied: No Token Provided". -/
  | noToken : AuthOutcome
  /-- 400 "Invalid Token". -/
  | invalidToken : AuthOutcome
  /-- `req.user` set to the decoded claim; `next()` is called. -/
  | authenticated (user : Nat) : AuthOutcome
deriving DecidableEq, Repr

/-- JavaScript `str.split(' ')`: split on every single space character,
keeping empty fragments (so `"".split(' ') = [""]`,
`"a  b".split(' ') = ["a","","b"]`). -/
def splitOnSpace (cs : List Char) : List (List Char) :=
  match cs with
  | [] => [[]]
  | c :: cs' =>
    match splitOnSpace cs' with
    | [] => [[]]
    | w :: ws => if c = ' ' then [] :: w :: ws else (c :: w) :: ws

/-- Embeds lines 68-70 of src/index.js:
`const token = authHeader && authHeader.split(' ')[1]` followed by the
JavaScript truthiness test `if (!token)`.  An absent header, an empty
header string, a missing second fragment, or an empty second fragment
all yield `none` (the falsy cases). -/
def extractToken (authHeader : Option String) : Option (List Char) :=
  match authHeader with
  | none => none
  | some h =>
    if h.data = [] then none
    else
      match (splitOnSpace h.data).get? 1 with
      | none => none
      | some t => if t = [] then none else some t

/-- Embeds the `authenticateToken` middleware (src/index.js 67-79):
no token → 401; token failing verification → 400; otherwise the
decoded claim is attached and the handler runs. -/
def authenticateToken (authHeader : Option String) (secret : String)
    (now : Nat) : AuthOutcome :=
  match extractToken authHeader with
  | none => .noToken
  | some t =>
    match jwtVerifyChars t secret now with
    | none => .invalidToken
    | some u => .authenticated u

/-! ## Requests, responses -/

/-- An inbound HTTP request: the `Authorization` header and the JSON
body fields the handlers destructure.  An absent JSON field is `none`;
a reference field may be present-but-null (`some none`). -/
structure Request where
  authHeader : Option String := none
  name : Option String := none
  email : Option String := none
  password : Option String := none
  address : Option String := none
  standard : Option String := none
  section_ : Option String := none
  status : Option String := none
  teacherId : Option (Option Nat) := none
  firstName : Option String := none
  lastName : Option String := none
  classId : Option (Option Nat) := none
  parentName : Option String := none
  city : Option String := none
deriving Repr

/-- A class with its teacher reference resolved (the result shape of
`.populate('teacherId')`). -/
structure PopulatedClass where
  id : Nat
  standard : String
  section_ : String
  status : String
  teacherId : Option Teacher
deriving DecidableEq, Repr

/-- A student with its class reference resolved, and transitively that
class's teacher reference (the result shape of the nested
`.populate({path: 'classId', populate: {path: 'teacherId'}})`). -/
structure PopulatedStudent where
  id : Nat
  firstName : String
  lastName : String
  classId : Option PopulatedClass
  parentName : String
  address : String
  city : String
deriving DecidableEq, Repr

/-- The JSON response bodies the handlers send. -/
inductive Body where
  | message (m : String)
  | errors (es : List String)
  | registered (user : Teacher) (m : String)
  | loggedIn (user : Teacher) (token : String) (m : String)
  | classResult (c : Option Class) (m : String)
  | classList (cs : List PopulatedClass)
  | studentResult (st : Option Student) (m : String)
  | studentList (sts : List PopulatedStudent)
deriving DecidableEq, Repr

/-- An HTTP response: status code and JSON body. -/
structure Response where
  status : Nat
  body : Body
deriving DecidableEq, Repr

/-! ## ValidationLayer (express-validator chains, src/index.js 51-64) -/

/-- Modelled from the spec: the email-format check of the
ValidationLayer (validator.js `isEmail`, an external library),
abstracted to: a single `'@'` separating a nonempty local part from a
domain that contains a `'.'` with nonempty labels around it. -/
def isEmailLike (s : String) : Bool :=
  match s.data.splitOn '@' with
  | [local_, domain] =>
    !local_.isEmpty &&
      match domain.splitOn '.' with
      | [a, b] => !a.isEmpty && !b.isEmpty
      | _ => false
  | _ => false

/-- One `check(field, msg).<validator>` chain of express-validator:
which body field it reads, the error message, and the predicate the
(stringified, absent-as-empty) value must satisfy. -/
structure FieldCheck where
  getVal : Request → Option String
  msg : String
  passes : String → Bool

/-- Embeds `teacherRegistrationValidator` (src/index.js 51-57): the
five chains in source order. `not().isEmpty()` passes iff the value is
nonempty; `isLength({min: 8})` compares the length. -/
def teacherRegistrationValidator : List FieldCheck :=
  [ ⟨Request.name, "Name is required", fun v => v ≠ ""⟩,
    ⟨Request.email, "Email is required", fun v => v ≠ ""⟩,
    ⟨Request.email, "Email is invalid", isEmailLike⟩,
    ⟨Request.password, "Password is required", fun v => v ≠ ""⟩,
    ⟨Request.password, "Password must be at least 8 characters long",
      fun v => 8 ≤ v.length⟩ ]

/-- Embeds `teacherLoginValidator` (src/index.js 60-64): the three
chains in source order. -/
def teacherLoginValidator : List FieldCheck :=
  [ ⟨Request.email, "Email is required", fun v => v ≠ ""⟩,
    ⟨Request.email, "Email is invalid", isEmailLike⟩,
    ⟨Request.password, "Password is required", fun v => v ≠ ""⟩ ]

/-- Modelled from the spec: express-validator's `validationResult(req)
.array()` — every chain is evaluated (no chain bails out early) and
each failing chain contributes its message, in chain order. -/
def runChecks (checks : List FieldCheck) (req : Request) : List String :=
  checks.filterMap fun c =>
    if c.passes ((c.getVal req).getD "") then none else some c.msg

/-! ## EntityRepository operations and route handlers -/

/-- `Teacher.findOne({email})`. -/
def findTeacherByEmail (s : Store) (email : String) : Option Teacher :=
  s.teachers.find? fun t => t.email == email

/-- `.populate('teacherId')` on one class: resolve the teacher
reference, `none` when it is absent or dangling. -/
def populateClass (s : Store) (c : Class) : PopulatedClass :=
  { id := c.id, standard := c.standard, section_ := c.section_,
    status := c.status,
    teacherId := c.teacherId.bind fun tid =>
      s.teachers.find? fun t => t.id == tid }

/-- The nested populate on one student: resolve the class reference
(and inside it the teacher reference); `none` when absent or
dangling. -/
def populateStudent (s : Store) (st : Student) : PopulatedStudent :=
  { id := st.id, firstName := st.firstName, lastName := st.lastName,
    parentName := st.parentName, address := st.address, city := st.city,
    classId := st.classId.bind fun cid =>
      (s.classes.find? fun c => c.id == cid).map (populateClass s) }

/-- Handler body of POST /register (src/index.js 84-115): aggregate
validation, duplicate-email pre-check, hash, persist. `freshId` is the
identity the store assigns to the new document. -/
def register (req : Request) (s : Store) (freshId : Nat) :
    Response × Store :=
  let errors := runChecks teacherRegistrationValidator req
  if errors ≠ [] then (⟨400, .errors errors⟩, s)
  else
    let email := req.email.getD ""
    match findTeacherByEmail s email with
    | some _ => (⟨400, .message "Email already exists"⟩, s)
    | none =>
      let t : Teacher :=
        { id := freshId, name := req.name.getD "", email := email,
          password := bcryptHash (req.password.getD "") 10,
          address := req.address.getD "", status := "ACTIVE" }
      (⟨200, .registered t "Registration is done successfully"⟩,
        { s with teachers := s.teachers ++ [t] })

/-- Handler body of POST /login (src/index.js 118-144): aggregate
validation, teacher lookup, credential check, token issuance.  Both
the unknown-email and the wrong-password branch answer 400 "Invalid
email or password". -/
def login (req : Request) (s : Store) (secret : String) (now : Nat) :
    Response :=
  let errors := runChecks teacherLoginValidator req
  if errors ≠ [] then ⟨400, .errors errors⟩
  else
    let email := req.email.getD ""
    let password := req.password.getD ""
    match findTeacherByEmail s email with
    | none => ⟨400, .message "Invalid email or password"⟩
    | some teacher =>
      if bcryptCompare password teacher.password then
        ⟨200, .loggedIn teacher (jwtSign teacher.id secret defaultTtl now)
          "Login successful"⟩
      else ⟨400, .message "Invalid email or password"⟩

/-- Handler body of POST /class (src/index.js 147-157): `new Class`
requires nonempty `standard` and `section` (Mongoose `required` on a
string field); a failing save is caught and answered 500. -/
def postClassHandler (req : Request) (s : Store) (freshId : Nat) :
    Response × Store :=
  match req.standard, req.section_ with
  | some std, some sec =>
    if std ≠ "" ∧ sec ≠ "" then
      let c : Class := { id := freshId, standard := std, section_ := sec,
                         status := "ACTIVE",
                         teacherId := req.teacherId.getD none }
      (⟨200, .classResult (some c) "Class added successfully"⟩,
        { s with classes := s.classes ++ [c] })
    else (⟨500, .message "ValidationError"⟩, s)
  | _, _ => (⟨500, .message "ValidationError"⟩, s)

/-- The merge `findByIdAndUpdate` performs on a class document: each
field present in the request body overwrites the stored field. -/
def applyClassUpdate (req : Request) (c : Class) : Class :=
  { c with standard := req.standard.getD c.standard,
           section_ := req.section_.getD c.section_,
           status := req.status.getD c.status,
           teacherId := req.teacherId.getD c.teacherId }

/-- Handler body of PUT /class/:id (src/index.js 159-168):
`findByIdAndUpdate(id, req.body, {new: true})` — `null` result and no
write when the identity is absent; 200 with the updated document
otherwise. -/
def putClassHandler (id : Nat) (req : Request) (s : Store) :
    Response × Store :=
  match s.classes.find? (fun c => c.id == id) with
  | none => (⟨200, .classResult none "Class updated successfully"⟩, s)
  | some c =>
    let c' := applyClassUpdate req c
    (⟨200, .classResult (some c') "Class updated successfully"⟩,
      { s with classes := s.classes.map fun x =>
          if x.id == id then c' else x })

/-- Handler body of DELETE /class/:id (src/index.js 170-179):
`findByIdAndDelete(id)` then an unconditional success message. -/
def deleteClassHandler (id : Nat) (s : Store) : Response × Store :=
  (⟨200, .message "Class deleted successfully"⟩,
    { s with classes := s.classes.filter fun c => !(c.id == id) })

/-- Handler body of GET /classes (src/index.js 181-189):
`Class.find().populate('teacherId')`. -/
def getClassesHandler (s : Store) : List PopulatedClass :=
  s.classes.map (populateClass s)

/-- Handler body of POST /student (src/index.js 192-202): no required
fields, absent strings stored empty. -/
def postStudentHandler (req : Request) (s : Store) (freshId : Nat) :
    Response × Store :=
  let st : Student :=
    { id := freshId, firstName := req.firstName.getD "",
      lastName := req.lastName.getD "",
      classId := req.classId.getD none,
      parentName := req.parentName.getD "",
      address := req.address.getD "", city := req.city.getD "" }
  (⟨200, .studentResult (some st) "Student added successfully"⟩,
    { s with students := s.students ++ [st] })

/-- The merge `findByIdAndUpdate` performs on a student document. -/
def applyStudentUpdate (req : Request) (st : Student) : Student :=
  { st with firstName := req.firstName.getD st.firstName,
            lastName := req.lastName.getD st.lastName,
            classId := req.classId.getD st.classId,
            parentName := req.parentName.getD st.parentName,
            address := req.address.getD st.address,
            city := req.city.getD st.city }

/-- Handler body of PUT /student/:id (src/index.js 204-213). -/
def putStudentHandler (id : Nat) (req : Request) (s : Store) :
    Response × Store :=
  match s.students.find? (fun st => st.id == id) with
  | none => (⟨200, .studentResult none "Student updated successfully"⟩, s)
  | some st =>
    let st' := applyStudentUpdate req st
    (⟨200, .studentResult (some st') "Student updated successfully"⟩,
      { s with students := s.students.map fun x =>
          if x.id == id then st' else x })

/-- Handler body of DELETE /student/:id (src/index.js 215-224). -/
def deleteStudentHandler (id : Nat) (s : Store) : Response × Store :=
  (⟨200, .message "Student deleted successfully"⟩,
    { s with students := s.students.filter fun st => !(st.id == id) })

/-- Handler body of GET /students and GET /public/students
(src/index.js 226-237 and 240-251): `Student.find()` with the nested
populate. -/
def getStudentsHandler (s : Store) : List PopulatedStudent :=
  s.students.map (populateStudent s)

/-! ## The routed application -/

/-- The eleven REST endpoints of src/index.js. -/
inductive Endpoint where
  | register
  | login
  | postClass
  | putClass (id : Nat)
  | deleteClass (id : Nat)
  | getClasses
  | postStudent
  | putStudent (id : Nat)
  | deleteStudent (id : Nat)
  | getStudents
  | publicStudents
deriving DecidableEq, Repr

/-- Which endpoints carry the `authenticateToken` middleware: all of
them except registration, login and the public student listing. -/
def requiresAuth : Endpoint → Bool
  | .register => false
  | .login => false
  | .publicStudents => false
  | _ => true

/-- The handler an authenticated request reaches (the function body
behind the middleware).  `user` is the decoded claim the middleware
attached as `req.user` (no handler reads it). -/
def protectedHandler (ep : Endpoint) (_user : Nat) (req : Request)
    (s : Store) (freshId : Nat) : Response × Store :=
  match ep with
  | .postClass => postClassHandler req s freshId
  | .putClass id => putClassHandler id req s
  | .deleteClass id => deleteClassHandler id s
  | .getClasses => (⟨200, .classList (getClassesHandler s)⟩, s)
  | .postStudent => postStudentHandler req s freshId
  | .putStudent id => putStudentHandler id req s
  | .deleteStudent id => deleteStudentHandler id s
  | .getStudents => (⟨200, .studentList (getStudentsHandler s)⟩, s)
  | _ => (⟨200, .message ""⟩, s)

/-- The whole application: route an endpoint invocation, running the
`authenticateToken` middleware first on every protected endpoint. -/
def app (ep : Endpoint) (req : Request) (s : Store) (secret : String)
    (now : Nat) (freshId : Nat) : Response × Store :=
  match ep with
  | .register => register req s freshId
  | .login => (login req s secret now, s)
  | .publicStudents => (⟨200, .studentList (getStudentsHandler s)⟩, s)
  | _ =>
    match authenticateToken req.authHeader secret now with
    | .noToken =>
      (⟨401, .message "Access Denied: No Token Provided"⟩, s)
    | .invalidToken => (⟨400, .message "Invalid Token"⟩, s)
    | .authenticated user => protectedHandler ep user req s freshId

/-! ## Lemmas about the token serialization -/

theorem digitChar_toNat_sub (d : Nat) (h : d < 10) :
    (Nat.digitChar d).toNat - 48 = d := by
  interval_cases d <;> rfl

theorem digitChar_ne_dot (d : Nat) (h : d < 10) : Nat.digitChar d ≠ '.' := by
  interval_cases d <;> decide

theorem digitChar_isDigit (d : Nat) (h : d < 10) :
    (Nat.digitChar d).isDigit = true := by
  interval_cases d <;> decide

theorem charsToNat_natToCharsAux (fuel : Nat) :
    ∀ n, n ≤ fuel → charsToNat (natToCharsAux fuel n) = n := by
  induction fuel with
  | zero =>
    intro n hn
    interval_cases n
    rfl
  | succ f ih =>
    intro n hn
    match n with
    | 0 => rfl
    | m + 1 =>
      have hdiv : (m + 1) / 10 ≤ f := by
        have := Nat.div_lt_self (Nat.succ_pos m) (by norm_num : 1 < 10)
        omega
      have hmod : (m + 1) % 10 < 10 := Nat.mod_lt _ (by norm_num)
      simp only [natToCharsAux, charsToNat, ih _ hdiv,
        digitChar_toNat_sub _ hmod]
      omega

theorem charsToNat_natToChars (n : Nat) : charsToNat (natToChars n) = n := by
  by_cases h : n = 0
  · subst h; rfl
  · simp only [natToChars, if_neg h]
    exact charsToNat_natToCharsAux n n le_rfl

theorem dot_not_mem_natToCharsAux (fuel : Nat) :
    ∀ n, '.' ∉ natToCharsAux fuel n := by
  induction fuel with
  | zero => intro n; simp [natToCharsAux]
  | succ f ih =>
    intro n
    match n with
    | 0 => simp [natToCharsAux]
    | m + 1 =>
      simp only [natToCharsAux, List.mem_cons, not_or]
      refine ⟨fun e => ?_, ih _⟩
      exact digitChar_ne_dot _ (Nat.mod_lt _ (by norm_num)) e.symm

theorem dot_not_mem_natToChars (n : Nat) : '.' ∉ natToChars n := by
  by_cases h : n = 0
  · subst h; decide
  · simp only [natToChars, if_neg h]
    exact dot_not_mem_natToCharsAux n n

theorem mem_natToCharsAux_isDigit (fuel : Nat) :
    ∀ n, ∀ c ∈ natToCharsAux fuel n, c.isDigit = true := by
  induction fuel with
  | zero => intro n c hc; simp [natToCharsAux] at hc
  | succ f ih =>
    intro n c hc
    match n with
    | 0 => simp [natToCharsAux] at hc
    | m + 1 =>
      simp only [natToCharsAux, List.mem_cons] at hc
      rcases hc with rfl | hc
      · exact digitChar_isDigit _ (Nat.mod_lt _ (by norm_num))
      · exact ih _ _ hc

theorem isDigitSeg_natToChars (n : Nat) :
    isDigitSeg (natToChars n) = true := by
  by_cases h : n = 0
  · subst h; decide
  · have hne : natToChars n ≠ [] := by
      simp only [natToChars, if_neg h]
      match n, h with
      | m + 1, _ => simp [natToCharsAux]
    have hall : ∀ c ∈ natToChars n, c.isDigit = true := by
      simp only [natToChars, if_neg h]
      exact mem_natToCharsAux_isDigit n n
    simp only [isDigitSeg, Bool.and_eq_true, Bool.not_eq_true',
      List.isEmpty_eq_false_iff_exists_mem, List.all_eq_true]
    constructor
    · match hm : natToChars n, hne with
      | c :: cs, _ => exact ⟨c, by simp⟩
    · exact hall

theorem splitAtDot_append (a b : List Char) (h : '.' ∉ a) :
    splitAtDot (a ++ '.' :: b) = some (a, b) := by
  induction a with
  | nil => simp [splitAtDot]
  | cons c cs ih =>
    have hc : ¬(c = '.') := fun e => h (by simp [e])
    have h' : '.' ∉ cs := fun m => h (List.mem_cons_of_mem _ m)
    simp [splitAtDot, hc, ih h']

theorem splitAtDot_eq_none (a : List Char) (h : '.' ∉ a) :
    splitAtDot a = none := by
  induction a with
  | nil => rfl
  | cons c cs ih =>
    have hc : ¬(c = '.') := fun e => h (by simp [e])
    have h' : '.' ∉ cs := fun m => h (List.mem_cons_of_mem _ m)
    simp [splitAtDot, hc, ih h']

theorem string_data_inj {a b : String} (h : a.data = b.data) : a = b :=
  congrArg String.mk h

/-- Round trip of the token model: verification of an issued token
succeeds with the embedded claim strictly before the expiry instant
`now + ttl` and fails from that instant on. -/
theorem jwtVerifyChars_jwtSignChars (claim : Nat) (secret : String)
    (ttl now now' : Nat) :
    jwtVerifyChars (jwtSignChars claim secret ttl now) secret now'
      = if now' < now + ttl then some claim else none := by
  have h1 : ('.' : Char) ∉ "jwt".data := by decide
  unfold jwtSignChars jwtVerifyChars
  simp only [splitAtDot_append _ _ h1,
    splitAtDot_append _ _ (dot_not_mem_natToChars claim),
    splitAtDot_append _ _ (dot_not_mem_natToChars (now + ttl)),
    isDigitSeg_natToChars, charsToNat_natToChars]
  simp

theorem jwtVerifyChars_wrong_secret (claim : Nat) (secret' secret : String)
    (ttl now now' : Nat) (h : secret' ≠ secret) :
    jwtVerifyChars (jwtSignChars claim secret' ttl now) secret now' = none := by
  have h1 : ('.' : Char) ∉ "jwt".data := by decide
  have hd : secret'.data ≠ secret.data := fun e => h (string_data_inj e)
  unfold jwtSignChars jwtVerifyChars
  simp only [splitAtDot_append _ _ h1,
    splitAtDot_append _ _ (dot_not_mem_natToChars claim),
    splitAtDot_append _ _ (dot_not_mem_natToChars (now + ttl))]
  simp [hd]

theorem jwtVerifyChars_no_dot (tok : List Char) (secret : String)
    (now : Nat) (h : '.' ∉ tok) :
    jwtVerifyChars tok secret now = none := by
  unfold jwtVerifyChars
  rw [splitAtDot_eq_none _ h]

/-! ## Lemmas about the header splitting of the middleware -/

theorem splitOnSpace_ne_nil (cs : List Char) : splitOnSpace cs ≠ [] := by
  cases cs with
  | nil => simp [splitOnSpace]
  | cons c cs' =>
    cases h : splitOnSpace cs' with
    | nil => simp [splitOnSpace, h]
    | cons w ws =>
      simp only [splitOnSpace, h]
      split <;> simp

theorem splitOnSpace_append (w rest : List Char) (h : ' ' ∉ w) :
    splitOnSpace (w ++ ' ' :: rest) = w :: splitOnSpace rest := by
  induction w with
  | nil =>
    simp only [List.nil_append, splitOnSpace]
    cases hs : splitOnSpace rest with
    | nil => exact absurd hs (splitOnSpace_ne_nil rest)
    | cons w' ws => simp
  | cons c cs ih =>
    have hc : ¬(c = ' ') := fun e => h (by simp [e])
    have h' : ' ' ∉ cs := fun m => h (List.mem_cons_of_mem _ m)
    simp only [List.cons_append, splitOnSpace, List.append_eq]
    rw [ih h']
    simp [hc]

theorem splitOnSpace_no_space (w : List Char) (h : ' ' ∉ w) :
    splitOnSpace w = [w] := by
  induction w with
  | nil => rfl
  | cons c cs ih =>
    have hc : ¬(c = ' ') := fun e => h (by simp [e])
    have h' : ' ' ∉ cs := fun m => h (List.mem_cons_of_mem _ m)
    simp [splitOnSpace, ih h', hc]

theorem extractToken_scheme (w rest : List Char) (h : ' ' ∉ w) :
    extractToken (some (String.mk (w ++ ' ' :: rest)))
      = match (splitOnSpace rest).get? 0 with
        | none => none
        | some t => if t = [] then none else some t := by
  have hne : ¬(w ++ ' ' :: rest = ([] : List Char)) := by simp
  simp only [extractToken, hne, if_neg, splitOnSpace_append w rest h]
  rfl

theorem authenticateToken_of_extract_none (ah : Option String)
    (secret : String) (now : Nat) (h : extractToken ah = none) :
    authenticateToken ah secret now = .noToken := by
  unfold authenticateToken
  rw [h]

theorem authenticateToken_of_verify_none (ah : Option String)
    (secret : String) (now : Nat) (t : List Char)
    (h : extractToken ah = some t)
    (hv : jwtVerifyChars t secret now = none) :
    authenticateToken ah secret now = .invalidToken := by
  simp [authenticateToken, h, hv]

/-! ## Claim theorems -/

/-- C1: for every protected endpoint (every operation except
registration, login, and the public student listing), a request
without an Authorization header (or with no token after the scheme)
is rejected with 401 "Access Denied: No Token Provided"; a request
whose token fails verification is rejected with 400 "Invalid Token";
in both cases the underlying handler is never executed — the response
is the fixed rejection and the store is returned unchanged. -/
theorem protected_endpoints_reject_before_handler (ep : Endpoint)
    (req : Request) (s : Store) (secret : String) (now fid : Nat)
    (hp : requiresAuth ep = true) :
    (extractToken req.authHeader = none →
      app ep req s secret now fid
        = (⟨401, .message "Access Denied: No Token Provided"⟩, s)) ∧
    (∀ t, extractToken req.authHeader = some t →
      jwtVerifyChars t secret now = none →
      app ep req s secret now fid = (⟨400, .message "Invalid Token"⟩, s)) := by
  cases ep
  case register => simp [requiresAuth] at hp
  case login => simp [requiresAuth] at hp
  case publicStudents => simp [requiresAuth] at hp
  all_goals
    exact ⟨fun h => by
        simp [app, authenticateToken_of_extract_none _ secret now h],
      fun t ht hv => by
        simp [app, authenticateToken_of_verify_none _ secret now t ht hv]⟩

/-- Witness for C1: on GET /classes, an absent header yields the 401
rejection and a malformed bearer token yields the 400 rejection, with
the store untouched. -/
theorem protected_endpoints_reject_before_handler_witness :
    app .getClasses { authHeader := none } ⟨[], [], []⟩ "k" 0 0
      = (⟨401, .message "Access Denied: No Token Provided"⟩, ⟨[], [], []⟩) ∧
    app .getClasses { authHeader := some "Bearer garbage" } ⟨[], [], []⟩ "k" 0 0
      = (⟨400, .message "Invalid Token"⟩, ⟨[], [], []⟩) :=
  ⟨(protected_endpoints_reject_before_handler .getClasses
      { authHeader := none } ⟨[], [], []⟩ "k" 0 0 (by decide)).1 (by decide),
   (protected_endpoints_reject_before_handler .getClasses
      { authHeader := some "Bearer garbage" } ⟨[], [], []⟩ "k" 0 0
      (by decide)).2 "garbage".data (by decide) (by decide)⟩

/-- C6 counterexample: the claim "the authorization gate accepts a
token only from a header carrying the literal scheme prefix `Bearer `"
is false on the code: `authHeader.split(' ')[1]` never inspects the
scheme word, so a header `Basic <valid token>` — which does not begin
with `Bearer ` — is accepted and the claim of the token is attached. -/
theorem bearer_prefix_not_required_counterexample :
    ("Basic " ++ jwtSign 7 "topsecret" 3600 0).data.take 7
        ≠ "Bearer ".data ∧
    authenticateToken (some ("Basic " ++ jwtSign 7 "topsecret" 3600 0))
        "topsecret" 0
      = .authenticated 7 := by
  decide

/-- C6 amended: the gate takes the second space-separated word of the
Authorization header as the token and never checks the scheme word:
the outcome is identical for any two space-free scheme words in front
of the same remainder, and any header whose second word is a token
that verifies is accepted with that token's claim (so `Bearer <token>`
works, but only because of its shape, not because `Bearer` is
checked). -/
theorem authorization_scheme_not_checked (secret : String) (now : Nat) :
    (∀ w1 w2 rest : List Char, ' ' ∉ w1 → ' ' ∉ w2 →
      authenticateToken (some (String.mk (w1 ++ ' ' :: rest))) secret now
        = authenticateToken (some (String.mk (w2 ++ ' ' :: rest))) secret now) ∧
    (∀ w t : List Char, ∀ claim : Nat, ' ' ∉ w → ' ' ∉ t →
      jwtVerifyChars t secret now = some claim →
      authenticateToken (some (String.mk (w ++ ' ' :: t))) secret now
        = .authenticated claim) := by
  constructor
  · intro w1 w2 rest h1 h2
    unfold authenticateToken
    rw [extractToken_scheme w1 rest h1, extractToken_scheme w2 rest h2]
  · intro w t claim hw ht hv
    have htne : ¬(t = []) := by
      intro e
      subst e
      simp [jwtVerifyChars, splitAtDot] at hv
    unfold authenticateToken
    rw [extractToken_scheme w t hw, splitOnSpace_no_space t ht]
    simp [htne, hv]

/-- Witness for the amended C6: a `Basic`-scheme header carrying a
valid token is accepted by the gate. -/
theorem authorization_scheme_not_checked_witness :
    authenticateToken
        (some (String.mk ("Basic".data ++ ' ' :: "jwt.7.63.k".data))) "k" 0
      = .authenticated 7 :=
  (authorization_scheme_not_checked "k" 0).2 "Basic".data "jwt.7.63.k".data 7
    (by decide) (by decide) (by decide)

/-- C4: a token issued for an identity claim verifies successfully
(yielding that claim) at every instant strictly before the expiry
instant `issuance + ttl` and fails verification at or after it; the
ttl the login handler passes is the 1-hour default (3600 seconds). -/
theorem token_lifecycle (claim : Nat) (secret : String)
    (ttl now now' : Nat) :
    (now' < now + ttl →
      jwtVerify (jwtSign claim secret ttl now) secret now' = some claim) ∧
    (now + ttl ≤ now' →
      jwtVerify (jwtSign claim secret ttl now) secret now' = none) ∧
    defaultTtl = 3600 := by
  refine ⟨fun hlt => ?_, fun hge => ?_, rfl⟩
  · show jwtVerifyChars (jwtSignChars claim secret ttl now) secret now'
      = some claim
    rw [jwtVerifyChars_jwtSignChars, if_pos hlt]
  · show jwtVerifyChars (jwtSignChars claim secret ttl now) secret now'
      = none
    rw [jwtVerifyChars_jwtSignChars, if_neg (by omega)]

/-- Witness for C4: a token with ttl 10 issued at 100 verifies at 105
and fails at 110. -/
theorem token_lifecycle_witness :
    jwtVerify (jwtSign 5 "k" 10 100) "k" 105 = some 5 ∧
    jwtVerify (jwtSign 5 "k" 10 100) "k" 110 = none :=
  ⟨(token_lifecycle 5 "k" 10 100 105).1 (by decide),
   (token_lifecycle 5 "k" 10 100 110).2.1 (by decide)⟩

/-- C7: token verification yields the single generic invalid outcome
`none` for every failing input — expiry, signature mismatch (a token
signed with a different secret), and structural malformation all map
to the same result — and the middleware maps every such failure to the
same bad-token rejection, so a caller cannot distinguish them. -/
theorem token_failures_indistinguishable (claim : Nat) (secret : String)
    (ttl now : Nat) :
    (∀ now', now + ttl ≤ now' →
      jwtVerify (jwtSign claim secret ttl now) secret now' = none) ∧
    (∀ secret', secret' ≠ secret → ∀ now',
      jwtVerify (jwtSign claim secret' ttl now) secret now' = none) ∧
    (∀ garbage : String, '.' ∉ garbage.data → ∀ now',
      jwtVerify garbage secret now' = none) ∧
    (∀ ah t now', extractToken ah = some t →
      jwtVerifyChars t secret now' = none →
      authenticateToken ah secret now' = .invalidToken) := by
  refine ⟨fun now' hge => ?_, fun secret' hne now' => ?_,
    fun g hg now' => ?_,
    fun ah t now' ht hv =>
      authenticateToken_of_verify_none ah secret now' t ht hv⟩
  · show jwtVerifyChars (jwtSignChars claim secret ttl now) secret now'
      = none
    rw [jwtVerifyChars_jwtSignChars, if_neg (by omega)]
  · show jwtVerifyChars (jwtSignChars claim secret' ttl now) secret now'
      = none
    exact jwtVerifyChars_wrong_secret claim secret' secret ttl now now' hne
  · show jwtVerifyChars g.data secret now' = none
    exact jwtVerifyChars_no_dot g.data secret now' hg

/-- Witness for C7: an expired token, a token signed under a different
secret, and a structurally malformed token all verify to `none`, and
the gate answers the same bad-token outcome. -/
theorem token_failures_indistinguishable_witness :
    jwtVerify (jwtSign 1 "k" 2 0) "k" 2 = none ∧
    jwtVerify (jwtSign 1 "x" 2 0) "k" 1 = none ∧
    jwtVerify "garbage" "k" 1 = none ∧
    authenticateToken (some "Bearer garbage") "k" 1 = .invalidToken :=
  ⟨(token_failures_indistinguishable 1 "k" 2 0).1 2 (by decide),
   (token_failures_indistinguishable 1 "k" 2 0).2.1 "x" (by decide) 1,
   (token_failures_indistinguishable 1 "k" 2 0).2.2.1 "garbage"
     (by decide) 1,
   (token_failures_indistinguishable 1 "k" 2 0).2.2.2
     (some "Bearer garbage") "garbage".data 1 (by decide) (by decide)⟩

/-- C2: the stored credential produced by hashing (cost factor 10,
parameters embedded in the output) is never equal to the submitted
plaintext, and verification of a candidate against the stored
credential returns true exactly when the candidate is the original
plaintext. -/
theorem credential_hashing_sound (p c : String) :
    bcryptHash p 10 ≠ p ∧
    (bcryptCompare c (bcryptHash p 10) = true ↔ c = p) := by
  have hlen : ∀ q : String, (bcryptHash q 10).length = 7 + q.length := by
    intro q
    show ("$2a$" ++ (toString 10 ++ ("$" ++ q))).length = 7 + q.length
    rw [String.length_append, String.length_append, String.length_append,
      show "$2a$".length = 4 from rfl,
      show (toString 10 : String).length = 2 from rfl,
      show "$".length = 1 from rfl]
    omega
  have hinj : ∀ q r : String, bcryptHash q 10 = bcryptHash r 10 → q = r := by
    intro q r e
    have hd := congrArg String.data e
    simp only [bcryptHash, String.data_append] at hd
    exact string_data_inj (List.append_cancel_left hd)
  constructor
  · intro e
    have := congrArg String.length e
    rw [hlen p] at this
    omega
  · unfold bcryptCompare
    rw [beq_iff_eq]
    exact ⟨fun e => (hinj p c e).symm, fun e => by rw [e]⟩

/-- Witness for C2: the hash of "password1" differs from the
plaintext and verifies against it. -/
theorem credential_hashing_sound_witness :
    bcryptHash "password1" 10 ≠ "password1" ∧
    bcryptCompare "password1" (bcryptHash "password1" 10) = true :=
  ⟨(credential_hashing_sound "password1" "password1").1,
   (credential_hashing_sound "password1" "password1").2.mpr rfl⟩

/-- C3: a registration request whose email already belongs to a stored
Teacher leaves the store unchanged, and — when the request passes
validation — is answered with the duplicate-resource error 400 "Email
already exists". -/
theorem duplicate_email_rejected (req : Request) (s : Store) (fid : Nat)
    (t : Teacher) (ht : t ∈ s.teachers)
    (he : t.email = req.email.getD "") :
    (register req s fid).2 = s ∧
    (runChecks teacherRegistrationValidator req = [] →
      register req s fid = (⟨400, .message "Email already exists"⟩, s)) := by
  have hfind : (findTeacherByEmail s (req.email.getD "")).isSome := by
    unfold findTeacherByEmail
    rw [List.find?_isSome]
    exact ⟨t, ht, by simp [he]⟩
  by_cases hv : runChecks teacherRegistrationValidator req = []
  · cases hf : findTeacherByEmail s (req.email.getD "") with
    | none => rw [hf] at hfind; simp at hfind
    | some u =>
      constructor
      · simp [register, hv, hf]
      · intro _
        simp [register, hv, hf]
  · constructor
    · simp [register, hv]
    · intro h
      exact absurd h hv

/-- Witness for C3: re-registering the stored email "a@x.co" with an
otherwise valid body answers 400 "Email already exists" and leaves the
single-teacher store unchanged. -/
theorem duplicate_email_rejected_witness :
    (register
        { name := some "B", email := some "a@x.co",
          password := some "password1", address := some "addr2" }
        ⟨[⟨0, "A", "a@x.co", "h", "addr", "ACTIVE"⟩], [], []⟩ 1).2
      = ⟨[⟨0, "A", "a@x.co", "h", "addr", "ACTIVE"⟩], [], []⟩ ∧
    register
        { name := some "B", email := some "a@x.co",
          password := some "password1", address := some "addr2" }
        ⟨[⟨0, "A", "a@x.co", "h", "addr", "ACTIVE"⟩], [], []⟩ 1
      = (⟨400, .message "Email already exists"⟩,
         ⟨[⟨0, "A", "a@x.co", "h", "addr", "ACTIVE"⟩], [], []⟩) := by
  have h := duplicate_email_rejected
    { name := some "B", email := some "a@x.co",
      password := some "password1", address := some "addr2" }
    ⟨[⟨0, "A", "a@x.co", "h", "addr", "ACTIVE"⟩], [], []⟩ 1
    ⟨0, "A", "a@x.co", "h", "addr", "ACTIVE"⟩ (by decide) (by decide)
  exact ⟨h.1, h.2 (by decide)⟩

/-- C10: for every login input that passes validation, an email
matching no stored teacher and a matching email with a non-verifying
password produce the identical outcome 400 "Invalid email or
password", so the response does not reveal whether the email is
registered. -/
theorem login_failures_indistinguishable (req : Request) (s : Store)
    (secret : String) (now : Nat)
    (hval : runChecks teacherLoginValidator req = []) :
    (findTeacherByEmail s (req.email.getD "") = none →
      login req s secret now
        = ⟨400, .message "Invalid email or password"⟩) ∧
    (∀ t, findTeacherByEmail s (req.email.getD "") = some t →
      bcryptCompare (req.password.getD "") t.password = false →
      login req s secret now
        = ⟨400, .message "Invalid email or password"⟩) := by
  constructor
  · intro hf
    simp [login, hval, hf]
  · intro t hf hcmp
    simp [login, hval, hf, hcmp]

/-- Witness for C10: against a store holding the teacher "a@x.co"
(password hash of "password1"), logging in with an unknown email and
logging in with the right email but wrong password both answer the
identical 400 "Invalid email or password". -/
theorem login_failures_indistinguishable_witness :
    login { email := some "b@x.co", password := some "pw123456" }
        ⟨[⟨0, "A", "a@x.co", bcryptHash "password1" 10, "ad", "ACTIVE"⟩],
          [], []⟩ "k" 0
      = ⟨400, .message "Invalid email or password"⟩ ∧
    login { email := some "a@x.co", password := some "wrongpass" }
        ⟨[⟨0, "A", "a@x.co", bcryptHash "password1" 10, "ad", "ACTIVE"⟩],
          [], []⟩ "k" 0
      = ⟨400, .message "Invalid email or password"⟩ :=
  ⟨(login_failures_indistinguishable
      { email := some "b@x.co", password := some "pw123456" }
      ⟨[⟨0, "A", "a@x.co", bcryptHash "password1" 10, "ad", "ACTIVE"⟩],
        [], []⟩ "k" 0 (by decide)).1 (by decide),
   (login_failures_indistinguishable
      { email := some "a@x.co", password := some "wrongpass" }
      ⟨[⟨0, "A", "a@x.co", bcryptHash "password1" 10, "ad", "ACTIVE"⟩],
        [], []⟩ "k" 0 (by decide)).2
      ⟨0, "A", "a@x.co", bcryptHash "password1" 10, "ad", "ACTIVE"⟩
      (by decide) (by decide)⟩

/-- C9: a class or student update on an identity absent from the store
answers 200 with a null entity and leaves the store unchanged, and a
class or student delete on such an identity answers the unconditional
success message and leaves the store unchanged — no not-found error is
raised. -/
theorem missing_identity_silent_success (s : Store) (idc ids : Nat)
    (req : Request)
    (hc : s.classes.find? (fun c => c.id == idc) = none)
    (hs : s.students.find? (fun st => st.id == ids) = none) :
    putClassHandler idc req s
      = (⟨200, .classResult none "Class updated successfully"⟩, s) ∧
    deleteClassHandler idc s
      = (⟨200, .message "Class deleted successfully"⟩, s) ∧
    putStudentHandler ids req s
      = (⟨200, .studentResult none "Student updated successfully"⟩, s) ∧
    deleteStudentHandler ids s
      = (⟨200, .message "Student deleted successfully"⟩, s) := by
  have hcf : s.classes.filter (fun c => !(c.id == idc)) = s.classes := by
    rw [List.filter_eq_self]
    intro a ha
    have h := List.find?_eq_none.mp hc a ha
    simp at h ⊢
    exact h
  have hsf : s.students.filter (fun st => !(st.id == ids)) = s.students := by
    rw [List.filter_eq_self]
    intro a ha
    have h := List.find?_eq_none.mp hs a ha
    simp at h ⊢
    exact h
  refine ⟨?_, ?_, ?_, ?_⟩
  · simp [putClassHandler, hc]
  · simp [deleteClassHandler, hcf]
  · simp [putStudentHandler, hs]
  · simp [deleteStudentHandler, hsf]

/-- Witness for C9: updating and deleting the absent identity 99 on a
store holding one class (id 5) and one student (id 7) answers the
success responses with a null entity and leaves the store unchanged. -/
theorem missing_identity_silent_success_witness :
    putClassHandler 99 { standard := some "6" }
        ⟨[], [⟨5, "5", "A", "ACTIVE", none⟩],
          [⟨7, "F", "L", none, "P", "Ad", "C"⟩]⟩
      = (⟨200, .classResult none "Class updated successfully"⟩,
         ⟨[], [⟨5, "5", "A", "ACTIVE", none⟩],
           [⟨7, "F", "L", none, "P", "Ad", "C"⟩]⟩) ∧
    deleteClassHandler 99
        ⟨[], [⟨5, "5", "A", "ACTIVE", none⟩],
          [⟨7, "F", "L", none, "P", "Ad", "C"⟩]⟩
      = (⟨200, .message "Class deleted successfully"⟩,
         ⟨[], [⟨5, "5", "A", "ACTIVE", none⟩],
           [⟨7, "F", "L", none, "P", "Ad", "C"⟩]⟩) ∧
    putStudentHandler 99 { firstName := some "G" }
        ⟨[], [⟨5, "5", "A", "ACTIVE", none⟩],
          [⟨7, "F", "L", none, "P", "Ad", "C"⟩]⟩
      = (⟨200, .studentResult none "Student updated successfully"⟩,
         ⟨[], [⟨5, "5", "A", "ACTIVE", none⟩],
           [⟨7, "F", "L", none, "P", "Ad", "C"⟩]⟩) ∧
    deleteStudentHandler 99
        ⟨[], [⟨5, "5", "A", "ACTIVE", none⟩],
          [⟨7, "F", "L", none, "P", "Ad", "C"⟩]⟩
      = (⟨200, .message "Student deleted successfully"⟩,
         ⟨[], [⟨5, "5", "A", "ACTIVE", none⟩],
           [⟨7, "F", "L", none, "P", "Ad", "C"⟩]⟩) := by
  have h := missing_identity_silent_success
    ⟨[], [⟨5, "5", "A", "ACTIVE", none⟩],
      [⟨7, "F", "L", none, "P", "Ad", "C"⟩]⟩ 99 99
    { standard := some "6" } (by decide) (by decide)
  have h' := missing_identity_silent_success
    ⟨[], [⟨5, "5", "A", "ACTIVE", none⟩],
      [⟨7, "F", "L", none, "P", "Ad", "C"⟩]⟩ 99 99
    { firstName := some "G" } (by decide) (by decide)
  exact ⟨h.1, h.2.1, h'.2.2.1, h.2.2.2⟩

/-- C5: every stored student appears in the result of the student list
reads (GET /students and GET /public/students), scalar fields intact;
a student whose class reference matches no existing class appears with
a null class field rather than causing an error or being excluded;
and resolution never mutates the store — both endpoints return it
unchanged. -/
theorem student_listing_total_and_readonly (s : Store) (st : Student)
    (hst : st ∈ s.students) :
    populateStudent s st ∈ getStudentsHandler s ∧
    (getStudentsHandler s).length = s.students.length ∧
    ((populateStudent s st).id = st.id ∧
     (populateStudent s st).firstName = st.firstName ∧
     (populateStudent s st).lastName = st.lastName) ∧
    (∀ cid, st.classId = some cid →
      s.classes.find? (fun c => c.id == cid) = none →
      (populateStudent s st).classId = none) ∧
    (∀ req secret now fid,
      (app .getStudents req s secret now fid).2 = s ∧
      app .publicStudents req s secret now fid
        = (⟨200, .studentList (getStudentsHandler s)⟩, s) ∧
      (∀ u, authenticateToken req.authHeader secret now
          = .authenticated u →
        app .getStudents req s secret now fid
          = (⟨200, .studentList (getStudentsHandler s)⟩, s))) := by
  refine ⟨?_, ?_, ⟨rfl, rfl, rfl⟩, ?_, ?_⟩
  · show populateStudent s st ∈ s.students.map (populateStudent s)
    exact List.mem_map_of_mem _ hst
  · show (s.students.map (populateStudent s)).length = s.students.length
    simp
  · intro cid hcid hfind
    simp [populateStudent, hcid, hfind]
  · intro req secret now fid
    refine ⟨?_, rfl, fun u hu => ?_⟩
    · cases h : authenticateToken req.authHeader secret now <;>
        simp [app, protectedHandler, h]
    · simp [app, protectedHandler, hu]

/-- Witness for C5: a student referencing the nonexistent class 42 is
listed with a null class field, and the public listing returns the
populated list with the store unchanged. -/
theorem student_listing_total_and_readonly_witness :
    populateStudent ⟨[], [], [⟨1, "F", "L", some 42, "P", "A", "C"⟩]⟩
        ⟨1, "F", "L", some 42, "P", "A", "C"⟩
      ∈ getStudentsHandler ⟨[], [], [⟨1, "F", "L", some 42, "P", "A", "C"⟩]⟩ ∧
    (populateStudent ⟨[], [], [⟨1, "F", "L", some 42, "P", "A", "C"⟩]⟩
        ⟨1, "F", "L", some 42, "P", "A", "C"⟩).classId = none ∧
    app .publicStudents {} ⟨[], [], [⟨1, "F", "L", some 42, "P", "A", "C"⟩]⟩
        "k" 0 0
      = (⟨200, .studentList (getStudentsHandler
          ⟨[], [], [⟨1, "F", "L", some 42, "P", "A", "C"⟩]⟩)⟩,
         ⟨[], [], [⟨1, "F", "L", some 42, "P", "A", "C"⟩]⟩) := by
  have h := student_listing_total_and_readonly
    ⟨[], [], [⟨1, "F", "L", some 42, "P", "A", "C"⟩]⟩
    ⟨1, "F", "L", some 42, "P", "A", "C"⟩ (by decide)
  exact ⟨h.1, h.2.2.2.1 42 (by decide) (by decide),
    (h.2.2.2.2 {} "k" 0 0).2.1⟩

/-- A message is in the aggregated violation list exactly when some
check of the validator carries that message and fails on the input:
the aggregation never drops a failing check. -/
theorem mem_runChecks (checks : List FieldCheck) (req : Request)
    (m : String) :
    m ∈ runChecks checks req ↔
      ∃ c, c ∈ checks ∧ c.msg = m ∧
        c.passes ((c.getVal req).getD "") = false := by
  unfold runChecks
  rw [List.mem_filterMap]
  constructor
  · rintro ⟨c, hc, hx⟩
    cases hb : c.passes ((c.getVal req).getD "") with
    | true => simp [hb] at hx
    | false =>
      simp only [hb, if_false, Bool.false_eq_true,
        Option.some.injEq] at hx
      exact ⟨c, hc, hx, hb⟩
  · rintro ⟨c, hc, hmsg, hb⟩
    exact ⟨c, hc, by simp [hb, hmsg]⟩

/-- C8: the validation layer evaluates every field check of the
registration and login validators without short-circuiting: a check's
message appears in the aggregated violation list exactly when that
check fails on the input, independently of whether earlier checks
fail, so an input violating several checks yields every corresponding
violation in one response. -/
theorem validation_no_short_circuit (req : Request) (c : FieldCheck) :
    (c ∈ teacherRegistrationValidator →
      (c.msg ∈ runChecks teacherRegistrationValidator req ↔
        c.passes ((c.getVal req).getD "") = false)) ∧
    (c ∈ teacherLoginValidator →
      (c.msg ∈ runChecks teacherLoginValidator req ↔
        c.passes ((c.getVal req).getD "") = false)) := by
  constructor
  · intro hc
    rw [mem_runChecks]
    constructor
    · rintro ⟨c', hc', hmsg, hfail⟩
      simp only [teacherRegistrationValidator, List.mem_cons,
        List.not_mem_nil, or_false] at hc hc'
      rcases hc with rfl | rfl | rfl | rfl | rfl <;>
        rcases hc' with rfl | rfl | rfl | rfl | rfl <;> simp_all
    · intro hfail
      exact ⟨c, hc, rfl, hfail⟩
  · intro hc
    rw [mem_runChecks]
    constructor
    · rintro ⟨c', hc', hmsg, hfail⟩
      simp only [teacherLoginValidator, List.mem_cons,
        List.not_mem_nil, or_false] at hc hc'
      rcases hc with rfl | rfl | rfl <;>
        rcases hc' with rfl | rfl | rfl <;> simp_all
    · intro hfail
      exact ⟨c, hc, rfl, hfail⟩

/-- Witness for C8: the registration input with an empty name, a valid
email and a 5-character password receives both the name violation and
the password-length violation in the one aggregated response. -/
theorem validation_no_short_circuit_witness :
    "Name is required" ∈ runChecks teacherRegistrationValidator
        { name := some "", email := some "a@b.co",
          password := some "short" } ∧
    "Password must be at least 8 characters long"
      ∈ runChecks teacherRegistrationValidator
        { name := some "", email := some "a@b.co",
          password := some "short" } :=
  ⟨((validation_no_short_circuit
      { name := some "", email := some "a@b.co", password := some "short" }
      ⟨Request.name, "Name is required", fun v => v ≠ ""⟩).1
      (by simp [teacherRegistrationValidator])).mpr (by decide),
   ((validation_no_short_circuit
      { name := some "", email := some "a@b.co", password := some "short" }
      ⟨Request.password, "Password must be at least 8 characters long",
        fun v => 8 ≤ v.length⟩).1
      (by simp [teacherRegistrationValidator])).mpr
      (by decide)⟩

end School
